import Mathlib

/-!
# Notification indicator widget

A shallow embedding of `plugins/dde-dock/notification/notification.cpp`: the
class `Notification` (a dock widget that caches the do-not-disturb flag, the
unread flag and the record count of the notification service and derives its
icon from them), followed by the properties of its specification.

Modelling conventions

* The data members of the class are the fields of `Notification`.  What the
  member functions read or write outside the object is kept next to it in
  `World`: the theme type answered by `DGuiApplicationHelper`, the signals
  the widget has emitted (oldest first), the method calls sent over the
  remote handle and the bus subscriptions registered so far.
* A member function is a function `World → World`.
* `Q_EMIT` appends the signal to `World.emitted` and then runs the slots
  that the constructor connected to it (lines 31-33), in the same step.
* `uint`, `quint32`, `qint64` and `int` values are only compared and stored,
  never computed with, so they are `Nat` and `Int`.
* The body of the task started by `watchNotification` is one step whose two
  remote answers are arguments: `none` for an invalid reply.
* `setMinimumSize` and `paintEvent` touch only geometry and the paint device
  and are left out.
-/

namespace NotificationPlugin

/-- Values of `QIcon` the widget builds: `QIcon::fromTheme(name)` and
`QIcon(fileName)`. -/
inductive QIcon where
  | fromTheme (name : String)
  | fromFile (fileName : String)
  deriving DecidableEq, Repr

/-- Theme types of `DGuiApplicationHelper::ColorType`. -/
inductive ColorType where
  | UnknownType
  | LightType
  | DarkType
  deriving DecidableEq, Repr

/-- Signals of the class `Notification`. -/
inductive Signal where
  | iconRefreshed
  | dndModeChanged (dnd : Bool)
  | notificationStatusChanged
  | notificationCountChanged (count : Nat)
  deriving DecidableEq, Repr

/-- Remote handle: the service, path and interface a `QDBusInterface` was
created with. -/
structure QDBusInterface where
  service : String
  path : String
  iface : String
  deriving DecidableEq, Repr

/-- Method calls made through `m_dbus->call`. -/
inductive DBusCall where
  | GetSystemInfo (kind : Nat)
  | SetSystemInfo (kind : Nat) (value : Bool)
  deriving DecidableEq, Repr

/-- One `QDBusConnection::sessionBus().connect` registration: the remote
signal and the slot it is routed to. -/
structure BusConnection where
  signalName : String
  slot : String
  deriving DecidableEq, Repr

/-- Data members of the class `Notification`. -/
structure Notification where
  m_icon : QIcon
  m_notificationCount : Nat
  m_dbus : Option QDBusInterface
  m_dndMode : Bool
  m_hasNewNotification : Bool
  deriving DecidableEq, Repr

/-- The widget together with what its member functions read and write
outside of it. -/
structure World where
  widget : Notification
  themeType : ColorType
  emitted : List Signal
  calls : List DBusCall
  connected : List BusConnection
  deriving DecidableEq, Repr

/-- Constructor `Notification::Notification` (lines 23-34).  The initial value
of `m_hasNewNotification` is not set in the constructor body; it comes from
the class declaration in `notification.h` and is an argument here. -/
def Notification.ctor (hasNewNotification0 : Bool) : Notification :=
  { m_icon := QIcon.fromTheme "notification"
    m_notificationCount := 0
    m_dbus := none
    m_dndMode := false
    m_hasNewNotification := hasNewNotification0 }

/-- The world right after construction of the widget under theme `theme`. -/
def World.constructed (theme : ColorType) (hasNewNotification0 : Bool) : World :=
  { widget := Notification.ctor hasNewNotification0
    themeType := theme
    emitted := []
    calls := []
    connected := [] }

/-- Accessor `Notification::icon` (lines 36-39). -/
def icon (s : World) : QIcon := s.widget.m_icon

/-- Accessor `Notification::dndMode` (lines 63-66). -/
def dndMode (s : World) : Bool := s.widget.m_dndMode

/-- Accessor `Notification::notificationCount` (lines 75-78). -/
def notificationCount (s : World) : Nat := s.widget.m_notificationCount

/-- Accessor `Notification::hasNewNotification` (lines 143-146). -/
def hasNewNotification (s : World) : Bool := s.widget.m_hasNewNotification

/-- Record a signal emission. -/
def logSignal (sig : Signal) (s : World) : World :=
  { s with emitted := s.emitted ++ [sig] }

/-- The value given to the local `iconName` in `refreshIcon` (lines 45-57). -/
def iconName (s : World) : String :=
  if dndMode s then
    if s.themeType = ColorType.LightType then
      ":/dsg/built-in-icons/notification-off-dark.svg"
    else ":/dsg/built-in-icons/notification-off.svg"
  else
    if hasNewNotification s then
      if s.themeType = ColorType.LightType then
        ":/dsg/built-in-icons/notification-unread-dark.svg"
      else ":/dsg/built-in-icons/notification-unread.svg"
    else
      if s.themeType = ColorType.LightType then
        ":/dsg/built-in-icons/notification-dark.svg"
      else ":/dsg/built-in-icons/notification.svg"

/-- Slot `Notification::refreshIcon` (lines 41-61). -/
def refreshIcon (s : World) : World :=
  logSignal Signal.iconRefreshed
    { s with widget := { s.widget with m_icon := QIcon.fromFile (iconName s) } }

/-- Emission `Q_EMIT dndModeChanged(dnd)`: connected to `refreshIcon` at line 31. -/
def emitDndModeChanged (dnd : Bool) (s : World) : World :=
  refreshIcon (logSignal (Signal.dndModeChanged dnd) s)

/-- Emission `Q_EMIT notificationStatusChanged()`: connected to `refreshIcon`
at line 32. -/
def emitNotificationStatusChanged (s : World) : World :=
  refreshIcon (logSignal Signal.notificationStatusChanged s)

/-- Emission `Q_EMIT notificationCountChanged(count)`: no slot of this class is
connected to it. -/
def emitNotificationCountChanged (count : Nat) (s : World) : World :=
  logSignal (Signal.notificationCountChanged count) s

/-- Theme change: the helper answers `t` from now on and its signal
`themeTypeChanged` runs `refreshIcon` (connection at line 33). -/
def themeTypeChanged (t : ColorType) (s : World) : World :=
  refreshIcon { s with themeType := t }

/-- Member `Notification::setDndMode` (lines 68-73). -/
def setDndMode (dnd : Bool) (s : World) : World :=
  match s.widget.m_dbus with
  | some _ => { s with calls := s.calls ++ [DBusCall.SetSystemInfo 0 dnd] }
  | none => s

/-- Member `Notification::resetNotificationStatus` (lines 134-141). -/
def resetNotificationStatus (s : World) : World :=
  if s.widget.m_hasNewNotification = false then s
  else
    emitNotificationStatusChanged
      { s with widget := { s.widget with m_hasNewNotification := false } }

/-- Slot `Notification::onSystemInfoChanged` (lines 155-162); `value` is the
result of `value.variant().toBool()`. -/
def onSystemInfoChanged (info : Nat) (value : Bool) (s : World) : World :=
  if info = 0 then
    emitDndModeChanged value { s with widget := { s.widget with m_dndMode := value } }
  else s

/-- Slot `Notification::setNotificationCount` (lines 164-171). -/
def setNotificationCount (count : Nat) (s : World) : World :=
  if s.widget.m_notificationCount = count then s
  else
    emitNotificationCountChanged count
      { s with widget := { s.widget with m_notificationCount := count } }

/-- Constant `Processed` of `onNotificationStateChanged` (line 175). -/
def Processed : Int := 2

/-- Slot `Notification::onNotificationStateChanged` (lines 173-182). -/
def onNotificationStateChanged (_id : Int) (processedType : Int) (s : World) : World :=
  if processedType = Processed then
    if !s.widget.m_hasNewNotification then
      emitNotificationStatusChanged
        { s with widget := { s.widget with m_hasNewNotification := true } }
    else s
  else s

/-- Registration `QDBusConnection::sessionBus().connect(..., signal, this, slot)`. -/
def busConnect (signalName slot : String) (s : World) : World :=
  { s with connected := s.connected ++ [{ signalName := signalName, slot := slot }] }

/-- Body of the task started by `Notification::watchNotification`
(lines 83-129).  `dnd` is the reply to `GetSystemInfo(0)` and
`recordCountVariant` the property `recordCount`, each `none` when invalid. -/
def watchNotification (newNotification : Bool) (dnd : Option Bool)
    (recordCountVariant : Option Nat) (s : World) : World :=
  let handle : QDBusInterface :=
    { service := "org.deepin.dde.Notification1"
      path := "/org/deepin/dde/Notification1"
      iface := "org.deepin.dde.Notification1" }
  let s1 : World := { s with widget := { s.widget with m_dbus := some handle } }
  let s2 : World := { s1 with calls := s1.calls ++ [DBusCall.GetSystemInfo 0] }
  let s3 : World :=
    match dnd with
    | none => s2
    | some v => refreshIcon { s2 with widget := { s2.widget with m_dndMode := v } }
  let s4 := busConnect "SystemInfoChanged" "onSystemInfoChanged(quint32,QDBusVariant)" s3
  let s5 : World :=
    match recordCountVariant with
    | none => s4
    | some c => setNotificationCount c s4
  let countChangedSlot := if newNotification then "RecordCountChanged" else "recordCountChanged"
  let s6 := busConnect countChangedSlot "setNotificationCount(uint)" s5
  if newNotification then
    busConnect "NotificationStateChanged" "onNotificationStateChanged(qint64, int)" s6
  else s6

/-- Operations that can be applied to the widget. -/
inductive Op where
  | refreshIcon
  | themeTypeChanged (t : ColorType)
  | onSystemInfoChanged (info : Nat) (value : Bool)
  | setNotificationCount (count : Nat)
  | onNotificationStateChanged (id : Int) (processedType : Int)
  | resetNotificationStatus
  | setDndMode (dnd : Bool)
  | watchNotification (newNotification : Bool) (dnd : Option Bool)
      (recordCountVariant : Option Nat)
  deriving DecidableEq, Repr

/-- One step of the widget: apply an operation. -/
def step (s : World) : Op → World
  | Op.refreshIcon => refreshIcon s
  | Op.themeTypeChanged t => themeTypeChanged t s
  | Op.onSystemInfoChanged info value => onSystemInfoChanged info value s
  | Op.setNotificationCount count => setNotificationCount count s
  | Op.onNotificationStateChanged id processedType =>
      onNotificationStateChanged id processedType s
  | Op.resetNotificationStatus => resetNotificationStatus s
  | Op.setDndMode dnd => setDndMode dnd s
  | Op.watchNotification newNotification dnd recordCountVariant =>
      watchNotification newNotification dnd recordCountVariant s

/-- Apply a sequence of operations, first to last. -/
def run (s : World) (ops : List Op) : World := ops.foldl step s

/-- Deliver a sequence of count-changed events to `setNotificationCount`. -/
def deliverCounts (s : World) (counts : List Nat) : World :=
  counts.foldl (fun w c => setNotificationCount c w) s

/-- Number of `notificationCountChanged` emissions in a signal log. -/
def countChangedEmissions (log : List Signal) : Nat :=
  (log.filter (fun sig =>
    match sig with
    | Signal.notificationCountChanged _ => true
    | _ => false)).length

/-- Number of `notificationStatusChanged` emissions in a signal log. -/
def statusChangedEmissions (log : List Signal) : Nat :=
  log.count Signal.notificationStatusChanged

/-- A world that differs from `s` only in the three inputs of the icon
selection: the cached DND flag, the cached unread flag and the theme type. -/
def withInputs (s : World) (dnd unread : Bool) (t : ColorType) : World :=
  { s with
    widget := { s.widget with m_dndMode := dnd, m_hasNewNotification := unread }
    themeType := t }

/-- The events of a sequence of count-changed events whose value differs from
the count cached just before them: `cached` before the first event, the value
of the preceding event afterwards. -/
def changedEvents : Nat → List Nat → List Nat
  | _, [] => []
  | cached, c :: cs =>
    if cached = c then changedEvents c cs else c :: changedEvents c cs

/-- Icon invariant: the cached icon is the constructor icon as long as
`refreshIcon` has never run, and the selection of `refreshIcon` for the
current inputs afterwards. -/
def IconInv (s : World) : Prop :=
  s.widget.m_icon =
    if Signal.iconRefreshed ∈ s.emitted then QIcon.fromFile (iconName s)
    else QIcon.fromTheme "notification"

instance (s : World) : Decidable (IconInv s) := by
  unfold IconInv
  infer_instance

/-! ## Auxiliary lemmas -/

theorem setNotificationCount_hasNew (c : Nat) (s : World) :
    (setNotificationCount c s).widget.m_hasNewNotification = s.widget.m_hasNewNotification := by
  unfold setNotificationCount
  split <;> rfl

theorem setNotificationCount_count (c : Nat) (s : World) :
    (setNotificationCount c s).widget.m_notificationCount = c := by
  unfold setNotificationCount
  split
  · assumption
  · rfl

theorem watchNotification_hasNew (n : Bool) (dnd : Option Bool) (rc : Option Nat) (s : World) :
    (watchNotification n dnd rc s).widget.m_hasNewNotification =
      s.widget.m_hasNewNotification := by
  cases dnd <;> cases rc <;> cases n <;>
    simp [watchNotification, busConnect, setNotificationCount_hasNew, refreshIcon, logSignal]

/-- A step that is neither a processed event nor a reset keeps the unread flag. -/
theorem step_hasNew_of_other (s : World) (op : Op)
    (h1 : ∀ id, op ≠ Op.onNotificationStateChanged id 2)
    (h2 : op ≠ Op.resetNotificationStatus) :
    hasNewNotification (step s op) = hasNewNotification s := by
  cases op with
  | refreshIcon => rfl
  | themeTypeChanged t => rfl
  | onSystemInfoChanged info value =>
    simp only [step, onSystemInfoChanged]
    split <;> rfl
  | setNotificationCount count => exact setNotificationCount_hasNew count s
  | onNotificationStateChanged id p =>
    have hp : p ≠ 2 := fun e => h1 id (by rw [e])
    simp [step, onNotificationStateChanged, Processed, hp]
  | resetNotificationStatus => exact absurd rfl h2
  | setDndMode dnd =>
    simp only [step, setDndMode]
    split <;> rfl
  | watchNotification n dnd rc => exact watchNotification_hasNew n dnd rc s

theorem iconInv_refreshIcon (s : World) : IconInv (refreshIcon s) := by
  simp [IconInv, refreshIcon, logSignal, iconName, dndMode, hasNewNotification]

theorem iconInv_setNotificationCount (c : Nat) (s : World) (h : IconInv s) :
    IconInv (setNotificationCount c s) := by
  unfold setNotificationCount
  split
  · exact h
  · simpa [IconInv, emitNotificationCountChanged, logSignal, iconName, dndMode,
      hasNewNotification] using h

theorem iconInv_busConnect (a b : String) (s : World) (h : IconInv s) :
    IconInv (busConnect a b s) := h

theorem iconInv_watchNotification (n : Bool) (dnd : Option Bool) (rc : Option Nat) (s : World)
    (h : IconInv s) : IconInv (watchNotification n dnd rc s) := by
  have h2 : ∀ calls : List DBusCall, ∀ handle : Option QDBusInterface,
      IconInv { s with widget := { s.widget with m_dbus := handle }, calls := calls } :=
    fun _ _ => h
  cases dnd <;> cases rc <;> cases n <;>
    simp only [watchNotification, Bool.false_eq_true, if_true, if_false] <;>
    repeat (first
      | exact h2 _ _
      | exact iconInv_refreshIcon _
      | apply iconInv_setNotificationCount
      | refine iconInv_busConnect _ _ _ ?_)

/-- Every operation preserves the icon invariant. -/
theorem iconInv_step (s : World) (op : Op) (h : IconInv s) : IconInv (step s op) := by
  cases op with
  | refreshIcon => exact iconInv_refreshIcon s
  | themeTypeChanged t => exact iconInv_refreshIcon _
  | onSystemInfoChanged info value =>
    simp only [step, onSystemInfoChanged]
    split
    · exact iconInv_refreshIcon _
    · exact h
  | setNotificationCount count => exact iconInv_setNotificationCount count s h
  | onNotificationStateChanged id p =>
    simp only [step, onNotificationStateChanged]
    split
    · split
      · exact iconInv_refreshIcon _
      · exact h
    · exact h
  | resetNotificationStatus =>
    simp only [step, resetNotificationStatus]
    split
    · exact h
    · exact iconInv_refreshIcon _
  | setDndMode dnd =>
    simp only [step, setDndMode]
    split
    · exact h
    · exact h
  | watchNotification n dnd rc => exact iconInv_watchNotification n dnd rc s h

theorem iconInv_run (ops : List Op) : ∀ s : World, IconInv s → IconInv (run s ops) := by
  induction ops with
  | nil => intro s h; exact h
  | cons op ops ih =>
    intro s h
    exact ih (step s op) (iconInv_step s op h)

/-- The icon chosen by `refreshIcon` depends on the three inputs only. -/
theorem icon_refreshIcon_withInputs (base : World) (d u : Bool) (t : ColorType) :
    icon (refreshIcon (withInputs base d u t)) =
      QIcon.fromFile
        (iconName (withInputs (World.constructed ColorType.UnknownType false) d u t)) := by
  simp [icon, refreshIcon, logSignal, withInputs, iconName, dndMode, hasNewNotification]

theorem changedEvents_mem (v : Nat) :
    ∀ (counts : List Nat) (cached : Nat), v ∈ counts → v ≠ cached →
      v ∈ changedEvents cached counts := by
  intro counts
  induction counts with
  | nil => intro cached h; simp at h
  | cons c cs ih =>
    intro cached hmem hne
    by_cases hvc : v = c
    · subst hvc
      have : ¬ cached = v := fun e => hne e.symm
      simp [changedEvents, this]
    · have hcs : v ∈ cs := by
        rcases List.mem_cons.mp hmem with h | h
        · exact absurd h hvc
        · exact h
      have := ih c hcs hvc
      unfold changedEvents
      split
      · exact this
      · exact List.mem_cons_of_mem _ this

/-- Delivering count events from any state: what is emitted and what is cached. -/
theorem deliverCounts_spec :
    ∀ (counts : List Nat) (s : World),
      (deliverCounts s counts).emitted =
          s.emitted ++ (changedEvents s.widget.m_notificationCount counts).map
            Signal.notificationCountChanged ∧
        (deliverCounts s counts).widget.m_notificationCount =
          counts.getLastD s.widget.m_notificationCount := by
  intro counts
  induction counts with
  | nil => intro s; simp [deliverCounts, changedEvents]
  | cons c cs ih =>
    intro s
    have hstep : deliverCounts s (c :: cs) = deliverCounts (setNotificationCount c s) cs := rfl
    have hce : changedEvents s.widget.m_notificationCount (c :: cs) =
        if s.widget.m_notificationCount = c then changedEvents c cs
        else c :: changedEvents c cs := rfl
    have hl : (c :: cs).getLastD s.widget.m_notificationCount = cs.getLastD c :=
      List.getLastD_cons _ _ _
    rw [hstep, (ih _).1, (ih _).2, setNotificationCount_count, hce, hl]
    refine ⟨?_, rfl⟩
    by_cases hq : s.widget.m_notificationCount = c
    · simp [setNotificationCount, hq]
    · simp [setNotificationCount, hq, emitNotificationCountChanged, logSignal]

theorem countChangedEmissions_map (l : List Nat) :
    countChangedEmissions (l.map Signal.notificationCountChanged) = l.length := by
  induction l with
  | nil => rfl
  | cons a l ih =>
    simp only [countChangedEmissions, List.map_cons, List.filter_cons, if_true,
      List.length_cons] at ih ⊢
    rw [ih]

/-! ## Properties of the specification -/

/-- Claim C1, as the code has it: after any sequence of operations applied to
the constructed widget, the cached icon is the themed icon `notification` of
the constructor as long as `refreshIcon` has not run (no `iconRefreshed` was
emitted), and from the first run on it equals the icon that the selection of
`refreshIcon` yields for the current DND flag, unread flag and theme type. -/
theorem icon_after_run_initial_or_selection (theme : ColorType) (hasNew0 : Bool)
    (ops : List Op) :
    icon (run (World.constructed theme hasNew0) ops) =
      if Signal.iconRefreshed ∈ (run (World.constructed theme hasNew0) ops).emitted then
        QIcon.fromFile (iconName (run (World.constructed theme hasNew0) ops))
      else QIcon.fromTheme "notification" :=
  iconInv_run ops (World.constructed theme hasNew0)
    (by simp [IconInv, World.constructed, Notification.ctor])

/-- Claim C1 fails as stated: in the constructed state under the light theme,
and still after a count event, the cached icon is the themed icon
`notification`, not the icon `refreshIcon` selects for the current inputs. -/
theorem icon_constructed_not_selection :
    icon (run (World.constructed ColorType.LightType false) []) ≠
        icon (refreshIcon (run (World.constructed ColorType.LightType false) [])) ∧
      icon (run (World.constructed ColorType.LightType false) [Op.setNotificationCount 3]) ≠
        icon (refreshIcon
          (run (World.constructed ColorType.LightType false) [Op.setNotificationCount 3])) := by
  decide

/-- Claim C2: with the DND flag set, `refreshIcon` selects the DND icon of the
theme whatever the unread flag; over the eight combinations of DND flag, unread
flag and light or dark theme it yields exactly six icons; and two inputs get
the same icon exactly when they agree on the DND flag and on the theme being
light and, unless DND is on, on the unread flag. -/
theorem refreshIcon_dnd_precedence_six_icons (base : World) :
    (∀ (u : Bool) (t : ColorType),
        icon (refreshIcon (withInputs base true u t)) =
          QIcon.fromFile
            (if t = ColorType.LightType then ":/dsg/built-in-icons/notification-off-dark.svg"
              else ":/dsg/built-in-icons/notification-off.svg")) ∧
      ((Finset.univ : Finset (Bool × Bool × Bool)).image (fun x =>
          icon (refreshIcon (withInputs base x.1 x.2.1
            (if x.2.2 = true then ColorType.LightType else ColorType.DarkType))))).card = 6 ∧
      (∀ (d1 u1 : Bool) (t1 : ColorType) (d2 u2 : Bool) (t2 : ColorType),
        icon (refreshIcon (withInputs base d1 u1 t1)) =
            icon (refreshIcon (withInputs base d2 u2 t2)) ↔
          d1 = d2 ∧ (t1 = ColorType.LightType ↔ t2 = ColorType.LightType) ∧
            (d1 = true ∨ u1 = u2)) := by
  refine ⟨?_, ?_, ?_⟩
  · intro u t
    simp [icon, refreshIcon, logSignal, withInputs, iconName, dndMode]
  · simp only [icon_refreshIcon_withInputs]
    decide
  · intro d1 u1 t1 d2 u2 t2
    simp only [icon_refreshIcon_withInputs]
    cases d1 <;> cases u1 <;> cases t1 <;> cases d2 <;> cases u2 <;> cases t2 <;> decide

/-- Claim C3, as the code has it: delivering a sequence of count events to the
constructed widget emits `notificationCountChanged` exactly for the events
whose value differs from the count cached just before them (0 before the first
event, the preceding value afterwards), carrying that value; so the number of
emissions is the number of such changes, every value other than 0 that occurs
is announced at least once, and `notificationCount()` ends as the last value
delivered (0 for the empty sequence). -/
theorem deliverCounts_emits_once_per_change (theme : ColorType) (hasNew0 : Bool)
    (counts : List Nat) :
    (deliverCounts (World.constructed theme hasNew0) counts).emitted =
        (changedEvents 0 counts).map Signal.notificationCountChanged ∧
      countChangedEmissions (deliverCounts (World.constructed theme hasNew0) counts).emitted =
        (changedEvents 0 counts).length ∧
      (∀ v, v ∈ counts → v ≠ 0 → Signal.notificationCountChanged v ∈
        (deliverCounts (World.constructed theme hasNew0) counts).emitted) ∧
      notificationCount (deliverCounts (World.constructed theme hasNew0) counts) =
        counts.getLastD 0 := by
  have h := deliverCounts_spec counts (World.constructed theme hasNew0)
  have he : (deliverCounts (World.constructed theme hasNew0) counts).emitted =
      (changedEvents 0 counts).map Signal.notificationCountChanged := by
    rw [h.1]
    simp [World.constructed, Notification.ctor]
  refine ⟨he, ?_, ?_, ?_⟩
  · rw [he, countChangedEmissions_map]
  · intro v hv hne
    rw [he]
    exact List.mem_map_of_mem _ (changedEvents_mem v counts 0 hv hne)
  · exact h.2

/-- Claim C3 fails as stated: the events 1, 2, 1 hold two distinct values, yet
`notificationCountChanged` is emitted three times. -/
theorem deliverCounts_not_once_per_distinct_value :
    countChangedEmissions
        (deliverCounts (World.constructed ColorType.LightType false) [1, 2, 1]).emitted = 3 ∧
      ([1, 2, 1] : List Nat).toFinset.card = 2 ∧
      countChangedEmissions
        (deliverCounts (World.constructed ColorType.LightType false) [1, 2, 1]).emitted ≠
          ([1, 2, 1] : List Nat).toFinset.card := by
  decide

/-- Claim C4: `setNotificationCount c` emits `notificationCountChanged c` once
when `c` differs from the cached count and nothing otherwise; afterwards the
cached count is `c`, and the DND flag, the unread flag and the icon are as
before. -/
theorem setNotificationCount_dedup (s : World) (c : Nat) :
    (setNotificationCount c s).emitted =
        s.emitted ++
          (if c ≠ notificationCount s then [Signal.notificationCountChanged c] else []) ∧
      notificationCount (setNotificationCount c s) = c ∧
      dndMode (setNotificationCount c s) = dndMode s ∧
      hasNewNotification (setNotificationCount c s) = hasNewNotification s ∧
      icon (setNotificationCount c s) = icon s := by
  unfold setNotificationCount
  by_cases h : s.widget.m_notificationCount = c
  · subst h
    simp [notificationCount]
  · have h2 : ¬ c = s.widget.m_notificationCount := fun e => h e.symm
    simp [h, h2, notificationCount, emitNotificationCountChanged, logSignal, dndMode,
      hasNewNotification, icon]

/-- Claim C5: in a step of the widget the unread flag goes from false to true
only if the step is `onNotificationStateChanged(id, 2)` and from true to false
only if it is `resetNotificationStatus()`; every other step keeps the flag; a
state-changed event with a code other than 2 keeps the flag and emits nothing;
and the two named steps do lead to true and to false. -/
theorem unread_flag_transitions (s : World) (op : Op) :
    (hasNewNotification s = false ∧ hasNewNotification (step s op) = true →
        ∃ id, op = Op.onNotificationStateChanged id 2) ∧
      (hasNewNotification s = true ∧ hasNewNotification (step s op) = false →
        op = Op.resetNotificationStatus) ∧
      ((∀ id, op ≠ Op.onNotificationStateChanged id 2) → op ≠ Op.resetNotificationStatus →
        hasNewNotification (step s op) = hasNewNotification s) ∧
      (∀ (id p : Int), p ≠ 2 →
        hasNewNotification (step s (Op.onNotificationStateChanged id p)) =
            hasNewNotification s ∧
          (step s (Op.onNotificationStateChanged id p)).emitted = s.emitted) ∧
      (∀ id : Int, hasNewNotification (step s (Op.onNotificationStateChanged id 2)) = true) ∧
      hasNewNotification (step s Op.resetNotificationStatus) = false := by
  refine ⟨?_, ?_, ?_, ?_, ?_, ?_⟩
  · rintro ⟨h0, h1⟩
    by_contra hne
    push_neg at hne
    by_cases hr : op = Op.resetNotificationStatus
    · subst hr
      simp [step, resetNotificationStatus, hasNewNotification] at h0 h1
      simp [h0] at h1
    · rw [step_hasNew_of_other s op hne hr, h0] at h1
      exact Bool.noConfusion h1
  · rintro ⟨h0, h1⟩
    by_contra hr
    by_cases hn : ∃ id, op = Op.onNotificationStateChanged id 2
    · obtain ⟨id, rfl⟩ := hn
      simp [step, onNotificationStateChanged, Processed, hasNewNotification] at h0 h1
      simp [h0] at h1
    · push_neg at hn
      rw [step_hasNew_of_other s op hn hr, h0] at h1
      exact Bool.noConfusion h1
  · exact step_hasNew_of_other s op
  · intro id p hp
    simp [step, onNotificationStateChanged, Processed, hp]
  · intro id
    cases h : s.widget.m_hasNewNotification <;>
      simp [step, onNotificationStateChanged, Processed, h, hasNewNotification,
        emitNotificationStatusChanged, refreshIcon, logSignal]
  · cases h : s.widget.m_hasNewNotification <;>
      simp [step, resetNotificationStatus, h, hasNewNotification,
        emitNotificationStatusChanged, refreshIcon, logSignal]

/-- Claim C6: from a state with the unread flag clear, two deliveries of
`onNotificationStateChanged` with code 2 leave the flag set; the first emits
`notificationStatusChanged` (followed by the `iconRefreshed` of the connected
`refreshIcon`), the second changes nothing and emits nothing, so the signal is
emitted exactly once in total. -/
theorem onNotificationStateChanged_twice (s : World) (id1 id2 : Int)
    (h : hasNewNotification s = false) :
    hasNewNotification
        (onNotificationStateChanged id2 2 (onNotificationStateChanged id1 2 s)) = true ∧
      (onNotificationStateChanged id1 2 s).emitted =
        s.emitted ++ [Signal.notificationStatusChanged, Signal.iconRefreshed] ∧
      onNotificationStateChanged id2 2 (onNotificationStateChanged id1 2 s) =
        onNotificationStateChanged id1 2 s ∧
      statusChangedEmissions
          (onNotificationStateChanged id2 2 (onNotificationStateChanged id1 2 s)).emitted =
        statusChangedEmissions s.emitted + 1 := by
  simp only [hasNewNotification] at h
  simp [onNotificationStateChanged, Processed, h, hasNewNotification,
    emitNotificationStatusChanged, refreshIcon, logSignal, statusChangedEmissions,
    List.count_append]

/-- Claim C6 at the constructed widget (light theme, unread flag clear) with
the ids 7 and 8. -/
theorem onNotificationStateChanged_twice_witness :
    hasNewNotification (World.constructed ColorType.LightType false) = false ∧
    (hasNewNotification (onNotificationStateChanged 8 2
        (onNotificationStateChanged 7 2 (World.constructed ColorType.LightType false))) = true ∧
      (onNotificationStateChanged 7 2 (World.constructed ColorType.LightType false)).emitted =
        (World.constructed ColorType.LightType false).emitted ++
          [Signal.notificationStatusChanged, Signal.iconRefreshed] ∧
      onNotificationStateChanged 8 2
          (onNotificationStateChanged 7 2 (World.constructed ColorType.LightType false)) =
        onNotificationStateChanged 7 2 (World.constructed ColorType.LightType false) ∧
      statusChangedEmissions
          (onNotificationStateChanged 8 2
            (onNotificationStateChanged 7 2
              (World.constructed ColorType.LightType false))).emitted =
        statusChangedEmissions (World.constructed ColorType.LightType false).emitted + 1) :=
  ⟨by decide,
    onNotificationStateChanged_twice (World.constructed ColorType.LightType false) 7 8
      (by decide)⟩

/-- Claim C7: `resetNotificationStatus()` leaves the unread flag false and emits
`notificationStatusChanged` (followed by the `iconRefreshed` of the connected
`refreshIcon`) exactly when the flag was true before; two calls in a row emit
it once if the flag was true before the first call and never otherwise, and
the second call changes nothing. -/
theorem resetNotificationStatus_dedup (s : World) :
    hasNewNotification (resetNotificationStatus s) = false ∧
      (resetNotificationStatus s).emitted =
        s.emitted ++ (if hasNewNotification s = true then
          [Signal.notificationStatusChanged, Signal.iconRefreshed] else []) ∧
      statusChangedEmissions (resetNotificationStatus (resetNotificationStatus s)).emitted =
        statusChangedEmissions s.emitted + (if hasNewNotification s = true then 1 else 0) ∧
      resetNotificationStatus (resetNotificationStatus s) = resetNotificationStatus s := by
  cases h : s.widget.m_hasNewNotification <;>
    simp [resetNotificationStatus, h, hasNewNotification, emitNotificationStatusChanged,
      refreshIcon, logSignal, statusChangedEmissions, List.count_append]

/-- Claim C8: the push event `onSystemInfoChanged(0, v)` sets the cached DND
flag to `v`, emits `dndModeChanged(v)` and, through the connected `refreshIcon`,
leaves the icon selected for `v`, the current unread flag and the current
theme (the DND icon of the theme when `v` is true); the count and the unread
flag are as before.  An event of any other kind changes nothing and emits
nothing. -/
theorem onSystemInfoChanged_effect (s : World) (v : Bool) :
    dndMode (onSystemInfoChanged 0 v s) = v ∧
      icon (onSystemInfoChanged 0 v s) =
        icon (refreshIcon (withInputs s v (hasNewNotification s) s.themeType)) ∧
      icon (onSystemInfoChanged 0 true s) =
        QIcon.fromFile (if s.themeType = ColorType.LightType then
          ":/dsg/built-in-icons/notification-off-dark.svg"
          else ":/dsg/built-in-icons/notification-off.svg") ∧
      notificationCount (onSystemInfoChanged 0 v s) = notificationCount s ∧
      hasNewNotification (onSystemInfoChanged 0 v s) = hasNewNotification s ∧
      (onSystemInfoChanged 0 v s).emitted =
        s.emitted ++ [Signal.dndModeChanged v, Signal.iconRefreshed] ∧
      (∀ info : Nat, info ≠ 0 → onSystemInfoChanged info v s = s) := by
  refine ⟨?_, ?_, ?_, ?_, ?_, ?_, ?_⟩
  · simp [onSystemInfoChanged, emitDndModeChanged, refreshIcon, logSignal, dndMode]
  · simp [onSystemInfoChanged, emitDndModeChanged, refreshIcon, logSignal, dndMode, icon,
      iconName, withInputs, hasNewNotification]
  · simp [onSystemInfoChanged, emitDndModeChanged, refreshIcon, logSignal, dndMode, icon,
      iconName]
  · simp [onSystemInfoChanged, emitDndModeChanged, refreshIcon, logSignal, notificationCount]
  · simp [onSystemInfoChanged, emitDndModeChanged, refreshIcon, logSignal, hasNewNotification]
  · simp [onSystemInfoChanged, emitDndModeChanged, refreshIcon, logSignal]
  · intro info h
    simp [onSystemInfoChanged, h]

/-- Claim C9: after the handshake of `watchNotification` the cached DND flag is
the answer of the DND query if it succeeded and the old flag otherwise, the
cached count is the answer of the count query if it succeeded and the old count
otherwise, each whatever the other query did; the icon is recomputed for the
new flag when the DND query succeeded and kept otherwise.  From the constructed
widget with the unread flag clear and the answers DND = false, count = 3 the
result has DND off, count 3 and the plain icon of the theme. -/
theorem watchNotification_queries (s : World) (newNotification : Bool) (dnd : Option Bool)
    (recordCountVariant : Option Nat) (theme : ColorType) :
    dndMode (watchNotification newNotification dnd recordCountVariant s) =
        dnd.getD (dndMode s) ∧
      notificationCount (watchNotification newNotification dnd recordCountVariant s) =
        recordCountVariant.getD (notificationCount s) ∧
      icon (watchNotification newNotification dnd recordCountVariant s) =
        (match dnd with
          | some v => icon (refreshIcon (withInputs s v (hasNewNotification s) s.themeType))
          | none => icon s) ∧
      hasNewNotification (watchNotification newNotification dnd recordCountVariant s) =
        hasNewNotification s ∧
      dndMode (watchNotification newNotification (some false) (some 3)
        (World.constructed theme false)) = false ∧
      notificationCount (watchNotification newNotification (some false) (some 3)
        (World.constructed theme false)) = 3 ∧
      icon (watchNotification newNotification (some false) (some 3)
        (World.constructed theme false)) =
        QIcon.fromFile
          (if theme = ColorType.LightType then ":/dsg/built-in-icons/notification-dark.svg"
            else ":/dsg/built-in-icons/notification.svg") := by
  refine ⟨?_, ?_, ?_, ?_, ?_, ?_, ?_⟩
  · cases dnd <;> cases recordCountVariant <;> cases newNotification <;>
      simp [watchNotification, busConnect, setNotificationCount, emitNotificationCountChanged,
        refreshIcon, logSignal, dndMode] <;> split <;> rfl
  · cases dnd <;> cases recordCountVariant <;> cases newNotification <;>
      simp [watchNotification, busConnect, setNotificationCount_count, refreshIcon, logSignal,
        notificationCount]
  · cases dnd <;> cases recordCountVariant <;> cases newNotification <;>
      simp [watchNotification, busConnect, setNotificationCount, emitNotificationCountChanged,
        refreshIcon, logSignal, icon, iconName, withInputs, dndMode, hasNewNotification] <;>
      split <;> rfl
  · exact watchNotification_hasNew newNotification dnd recordCountVariant s
  · cases newNotification <;> rfl
  · cases newNotification <;> rfl
  · cases newNotification <;> cases theme <;> rfl

/-- Claim C10: two states that agree on the DND flag, the unread flag and the
theme type get the same icon from `refreshIcon`, whatever else differs; a
second call in a row yields the same icon and the same members as the first;
and `refreshIcon` leaves the DND flag, the unread flag, the count and the theme
type as they were. -/
theorem refreshIcon_idempotent (s1 s2 : World) (hd : dndMode s1 = dndMode s2)
    (hu : hasNewNotification s1 = hasNewNotification s2)
    (ht : s1.themeType = s2.themeType) :
    icon (refreshIcon s1) = icon (refreshIcon s2) ∧
      icon (refreshIcon (refreshIcon s1)) = icon (refreshIcon s1) ∧
      (refreshIcon (refreshIcon s1)).widget = (refreshIcon s1).widget ∧
      dndMode (refreshIcon s1) = dndMode s1 ∧
      hasNewNotification (refreshIcon s1) = hasNewNotification s1 ∧
      notificationCount (refreshIcon s1) = notificationCount s1 ∧
      (refreshIcon s1).themeType = s1.themeType := by
  refine ⟨?_, ?_, ?_, rfl, rfl, rfl, rfl⟩
  · simp only [dndMode, hasNewNotification] at hd hu
    simp [refreshIcon, logSignal, icon, iconName, dndMode, hasNewNotification, hd, hu, ht]
  · simp [refreshIcon, logSignal, icon, iconName, dndMode, hasNewNotification]
  · simp [refreshIcon, logSignal, icon, iconName, dndMode, hasNewNotification]

/-- Claim C10 at the constructed widget and at a widget after a handshake and a
count event: they differ in icon, count and remote handle and agree on the
three inputs. -/
theorem refreshIcon_idempotent_witness :
    dndMode (World.constructed ColorType.LightType false) =
        dndMode (setNotificationCount 5
          (watchNotification true (some false) none
            (World.constructed ColorType.LightType false))) ∧
      hasNewNotification (World.constructed ColorType.LightType false) =
        hasNewNotification (setNotificationCount 5
          (watchNotification true (some false) none
            (World.constructed ColorType.LightType false))) ∧
      (World.constructed ColorType.LightType false).themeType =
        (setNotificationCount 5
          (watchNotification true (some false) none
            (World.constructed ColorType.LightType false))).themeType ∧
      icon (World.constructed ColorType.LightType false) ≠
        icon (setNotificationCount 5
          (watchNotification true (some false) none
            (World.constructed ColorType.LightType false))) ∧
      icon (refreshIcon (World.constructed ColorType.LightType false)) =
        icon (refreshIcon (setNotificationCount 5
          (watchNotification true (some false) none
            (World.constructed ColorType.LightType false)))) ∧
      (refreshIcon (refreshIcon (World.constructed ColorType.LightType false))).widget =
        (refreshIcon (World.constructed ColorType.LightType false)).widget :=
  ⟨by decide, by decide, by decide, by decide,
    (refreshIcon_idempotent (World.constructed ColorType.LightType false)
      (setNotificationCount 5
        (watchNotification true (some false) none
          (World.constructed ColorType.LightType false)))
      (by decide) (by decide) (by decide)).1,
    (refreshIcon_idempotent (World.constructed ColorType.LightType false)
      (setNotificationCount 5
        (watchNotification true (some false) none
          (World.constructed ColorType.LightType false)))
      (by decide) (by decide) (by decide)).2.2.1⟩

end NotificationPlugin
